import Mathlib

/-!
# Verification of the multi-tool dispatch and configuration core

Shallow embedding of `src/multi_tool.cpp`: the two-phase command-line
parse built on boost::program_options (a permissive tool-name pass and a
strict merged-schema pass), and the derivation of the runtime
configuration from the parsed general options.

The boost::program_options behaviour relevant to this program is
modelled explicitly:
* tokens starting with `--` are long options, split at the first `=`
  into a name and an optional adjacent value; other tokens starting
  with `-` are (unregistered here) short options; everything else is a
  positional token;
* long option names are matched exactly or, failing that, as an
  unambiguous prefix of a declared name (the `allow_guessing` bit of
  boost's default command-line style); an ambiguous abbreviation is an
  error;
* a declared option that requires a value and has no adjacent value
  consumes the next token whatever it looks like; if there is no next
  token the parse fails with a missing-parameter error;
* giving an adjacent value to an option that takes none is an error;
* with `allow_unregistered`, unknown option tokens are collected and
  then dropped by `store`; without it they are a hard error;
* `store` skips positional tokens that were not mapped by a
  positional-options description, and rejects a second occurrence of a
  scalar option (`multiple_occurrences`);
* a `size_t` option value that does not parse as a non-negative integer
  is an `invalid_option_value` error (modelled by `parseNatStr`;
  overflow of the C++ `size_t` range is not modelled).

Uncaught C++ exceptions terminate the process abnormally, hence with a
non-zero exit status; this is modelled by `exitsZero`.
-/

namespace MultiTool

/-- One option declaration: its long name and whether it requires a
value token (`po::value<...>`), as opposed to presence-only options
(`bool_switch`, the bare `help` entry). -/
structure OptDecl where
  name : String
  takesValue : Bool
deriving DecidableEq, Repr

/-- Errors raised by the boost parse/store machinery, plus the
`std::logic_error` thrown by `parseOptions` for the save-exe/load-exe
clash (lines 112-116 of `multi_tool.cpp`). -/
inductive OptErr where
  | unknownOption (tok : String)
  | ambiguousOption (nm : String)
  | missingParameter (nm : String)
  | extraParameter (nm : String)
  | multipleOccurrences (nm : String)
  | invalidOptionValue (nm : String) (val : String)
  | mutuallyExclusiveModes
deriving DecidableEq, Repr

/-- Classification of a raw command-line token. -/
inductive TokClass where
  | positional
  | shortOpt
  | longOpt (nm : String) (adj : Option String)
deriving DecidableEq, Repr

/-- Split the part of a long token after `--` at the first `=`. -/
def splitLong (cs : List Char) : String × Option String :=
  let nm := cs.takeWhile (fun c => c ≠ '=')
  if nm.length = cs.length then (String.mk nm, none)
  else (String.mk nm, some (String.mk (cs.drop (nm.length + 1))))

/-- Classify a token the way boost's command-line parser does: `--x`
is a long option (split at the first `=`), `-x` is a short option, and
anything else (including bare `-` and bare `--`) is positional. -/
def classifyTok (t : String) : TokClass :=
  match t.data with
  | '-' :: '-' :: [] => .positional
  | '-' :: '-' :: c :: cs =>
      match splitLong (c :: cs) with
      | (nm, adj) => .longOpt nm adj
  | '-' :: _ :: _ => .shortOpt
  | _ => .positional

/-- Whether the first character list leads the second (structural
string-prefix test). -/
def leadsWith : List Char → List Char → Bool
  | [], _ => true
  | _ :: _, [] => false
  | p :: ps, x :: xs => p = x && leadsWith ps xs

/-- `strLeads pre s` holds when `s` starts with `pre`. -/
def strLeads (pre s : String) : Bool :=
  leadsWith pre.data s.data

/-- Parse a digit string into a number, the way
`boost::lexical_cast<std::size_t>` accepts option values: one or more
decimal digits (overflow of the C++ `size_t` range is not
modelled). -/
def parseNatAux : List Char → Nat → Option Nat
  | [], acc => some acc
  | c :: cs, acc =>
      if c.isDigit then parseNatAux cs (acc * 10 + (c.toNat - 48)) else none

/-- Numeric value of an option argument, if any. -/
def parseNatStr (s : String) : Option Nat :=
  match s.data with
  | [] => none
  | cs => parseNatAux cs 0

/-- Result of matching a long-option name against the declared
options. -/
inductive LookRes where
  | found (d : OptDecl)
  | notFound
  | ambiguous
deriving DecidableEq, Repr

/-- Find the first declaration whose name equals `nm` exactly. -/
def findExact (decls : List OptDecl) (nm : String) : Option OptDecl :=
  decls.find? (fun d => d.name = nm)

/-- Match a long-option name against the declared options: exact match
first, otherwise boost's prefix guessing (`allow_guessing`): a unique
declared name having `nm` as a prefix matches, several candidates are
ambiguous, none is not found. -/
def lookupLong (decls : List OptDecl) (nm : String) : LookRes :=
  match findExact decls nm with
  | some d => .found d
  | none =>
      match decls.filter (fun d => strLeads nm d.name) with
      | [] => .notFound
      | [d] => .found d
      | _ => .ambiguous

/-- One parsed occurrence produced by a command-line run: a registered
option (under its canonical declared name) with its value token, an
unregistered option token kept whole (only with `allow_unregistered`),
or a positional token. -/
inductive RawOcc where
  | opt (nm : String) (val : Option String)
  | unreg (tok : String)
  | pos (tok : String)
deriving DecidableEq, Repr

/-- The token-consumption loop of boost's command-line parser
(`command_line_parser(...).options(decls).run()`), with or without
`allow_unregistered`.  A declared option that requires a value and has
no adjacent `=value` consumes the following token unconditionally and
fails with a missing-parameter error when there is none. -/
def cmdRun (decls : List OptDecl) (allowUnreg : Bool) :
    List String → Except OptErr (List RawOcc)
  | [] => .ok []
  | t :: rest =>
    match classifyTok t with
    | .positional => (cmdRun decls allowUnreg rest).map (fun os => .pos t :: os)
    | .shortOpt =>
        if allowUnreg then (cmdRun decls allowUnreg rest).map (fun os => .unreg t :: os)
        else .error (.unknownOption t)
    | .longOpt nm adj =>
      match lookupLong decls nm with
      | .ambiguous => .error (.ambiguousOption nm)
      | .notFound =>
          if allowUnreg then (cmdRun decls allowUnreg rest).map (fun os => .unreg t :: os)
          else .error (.unknownOption t)
      | .found d =>
          if d.takesValue then
            match adj with
            | some v => (cmdRun decls allowUnreg rest).map (fun os => .opt d.name (some v) :: os)
            | none =>
              match rest with
              | [] => .error (.missingParameter d.name)
              | v :: rest2 =>
                  (cmdRun decls allowUnreg rest2).map (fun os => .opt d.name (some v) :: os)
          else
            match adj with
            | some _ => .error (.extraParameter d.name)
            | none => (cmdRun decls allowUnreg rest).map (fun os => .opt d.name none :: os)

/-! ## Phase one: `parseToolName` (lines 18-63) -/

/-- The three declarations of the "Tool Selection Options" description:
all take a string value (`misc-positional` is a string vector). -/
def phase1Decls : List OptDecl :=
  [⟨"list-tools", true⟩, ⟨"tool-name", true⟩, ⟨"misc-positional", true⟩]

/-- The positional-options description of phase one: the first
positional token is `tool-name`, every further one is
`misc-positional`. -/
def assignPositionals : List RawOcc → Bool → List RawOcc
  | [], _ => []
  | .pos t :: rest, false => .opt "tool-name" (some t) :: assignPositionals rest true
  | .pos t :: rest, true => .opt "misc-positional" (some t) :: assignPositionals rest true
  | o :: rest, b => o :: assignPositionals rest b

/-- The `po::store` step of phase one: record the scalar `tool-name`
and `list-tools` values (a second occurrence of either is a
`multiple_occurrences` error), drop the composing `misc-positional`
vector and everything unregistered.  Returns the `tool-name` binding,
which is all `parseToolName` queries. -/
def store1 : List RawOcc → Option String → Option String →
    Except OptErr (Option String)
  | [], tn, _ => .ok tn
  | .opt "tool-name" v :: rest, tn, lt =>
      if tn.isSome then .error (.multipleOccurrences "tool-name")
      else store1 rest (some (v.getD "")) lt
  | .opt "list-tools" v :: rest, tn, lt =>
      if lt.isSome then .error (.multipleOccurrences "list-tools")
      else store1 rest tn (some (v.getD ""))
  | .opt _ _ :: rest, tn, lt => store1 rest tn lt
  | .unreg _ :: rest, tn, lt => store1 rest tn lt
  | .pos _ :: rest, tn, lt => store1 rest tn lt

/-- The permissive first-phase parse: run with `allow_unregistered`,
map positionals, store; yields the `tool-name` binding if any. -/
def phase1 (tokens : List String) : Except OptErr (Option String) := do
  let occs ← cmdRun phase1Decls true tokens
  store1 (assignPositionals occs false) none none

/-- Lexicographically insert a string into a sorted list. -/
def insertSorted (s : String) : List String → List String
  | [] => [s]
  | t :: rest => if s < t then s :: t :: rest else t :: insertSorted s rest

/-- Modelled from the spec: `tool_registry.hpp` (the `globalTools`
name-keyed map and `enumerateToolNames`) is not under `src/`; per the
spec the resolver surfaces "the full sorted list of registered tool
names", so the registry is modelled as the list of registered names and
its enumeration as their lexicographic sort. -/
def enumerateToolNames (registry : List String) : List String :=
  registry.foldr insertSorted []

/-- Outcomes of `parseToolName` other than success: a boost parse/store
exception propagating out, the no-tool-given usage error (lines 45-50),
or the unregistered-tool error (lines 54-59).  The latter two carry
what the code prints before throwing. -/
inductive ToolNameErr where
  | parseFail (e : OptErr)
  | noTool (usage : String) (names : List String)
  | unknownTool (tool : String) (names : List String)
deriving DecidableEq, Repr

/-- The usage line printed at line 46. -/
def usageOf (progName : String) : String :=
  "Usage: " ++ progName ++ " tool-name [--help]"

/-- `parseToolName` (lines 18-63): permissive parse, then the usage
error when no tool name was bound, then the registry lookup. -/
def parseToolName (registry : List String) (progName : String)
    (tokens : List String) : Except ToolNameErr String :=
  match phase1 tokens with
  | .error e => .error (.parseFail e)
  | .ok none => .error (.noTool (usageOf progName) (enumerateToolNames registry))
  | .ok (some t) =>
      if registry.contains t then .ok t
      else .error (.unknownTool t (enumerateToolNames registry))

/-! ## Phase two: `parseOptions` (lines 66-119) -/

/-- The seven general options of lines 72-97.  `help`, `model`,
`compile-only` and `defer-attach` take no value token; `ipus`,
`save-exe` and `load-exe` require one. -/
def generalDecls : List OptDecl :=
  [⟨"help", false⟩, ⟨"model", false⟩, ⟨"ipus", true⟩,
   ⟨"save-exe", true⟩, ⟨"load-exe", true⟩,
   ⟨"compile-only", false⟩, ⟨"defer-attach", false⟩]

/-- The typed `variables_map` restricted to what the program reads:
the seven general options with their parsed (or default) values, plus
the tool's own option occurrences in order (their value semantics are
tool-defined and modelled as composing raw strings). -/
structure VarMap where
  help : Bool
  model : Bool
  ipus : Nat
  saveExe : String
  loadExe : String
  compileOnly : Bool
  deferAttach : Bool
  toolOpts : List (String × Option String)
deriving DecidableEq, Repr

/-- The defaults of lines 72-97: `model`, `compile-only` and
`defer-attach` false, `ipus` 1, `save-exe` and `load-exe` empty. -/
def defaultVarMap : VarMap :=
  { help := false, model := false, ipus := 1, saveExe := "", loadExe := "",
    compileOnly := false, deferAttach := false, toolOpts := [] }

/-- Apply one registered occurrence to the map, with boost's
second-occurrence check for the scalar general options and
`invalid_option_value` for a non-numeric `ipus` value. -/
def applyOcc (nm : String) (v : Option String) (seen : List String)
    (vm : VarMap) : Except OptErr (List String × VarMap) :=
  if nm = "help" then
    if seen.contains nm then .error (.multipleOccurrences nm)
    else .ok (nm :: seen, { vm with help := true })
  else if nm = "model" then
    if seen.contains nm then .error (.multipleOccurrences nm)
    else .ok (nm :: seen, { vm with model := true })
  else if nm = "ipus" then
    if seen.contains nm then .error (.multipleOccurrences nm)
    else
      match parseNatStr (v.getD "") with
      | none => .error (.invalidOptionValue nm (v.getD ""))
      | some n => .ok (nm :: seen, { vm with ipus := n })
  else if nm = "save-exe" then
    if seen.contains nm then .error (.multipleOccurrences nm)
    else .ok (nm :: seen, { vm with saveExe := v.getD "" })
  else if nm = "load-exe" then
    if seen.contains nm then .error (.multipleOccurrences nm)
    else .ok (nm :: seen, { vm with loadExe := v.getD "" })
  else if nm = "compile-only" then
    if seen.contains nm then .error (.multipleOccurrences nm)
    else .ok (nm :: seen, { vm with compileOnly := true })
  else if nm = "defer-attach" then
    if seen.contains nm then .error (.multipleOccurrences nm)
    else .ok (nm :: seen, { vm with deferAttach := true })
  else
    .ok (seen, { vm with toolOpts := vm.toolOpts ++ [(nm, v)] })

/-- The `po::store` step of phase two: positional tokens were mapped by
no positional description, so they are skipped (boost's `store` ignores
nameless options); registered occurrences update the map. -/
def storeGeneral : List RawOcc → List String → VarMap → Except OptErr VarMap
  | [], _, vm => .ok vm
  | .pos _ :: rest, seen, vm => storeGeneral rest seen vm
  | .unreg _ :: rest, seen, vm => storeGeneral rest seen vm
  | .opt nm v :: rest, seen, vm =>
      match applyOcc nm v seen vm with
      | .error e => .error e
      | .ok (seen2, vm2) => storeGeneral rest seen2 vm2

/-- The save-exe/load-exe mutual-exclusion check of lines 112-116. -/
def checkExclusive (vm : VarMap) : Except OptErr Unit :=
  if !vm.saveExe.isEmpty && !vm.loadExe.isEmpty then
    .error .mutuallyExclusiveModes
  else .ok ()

/-- What `parseOptions` does after a successful strict parse: either
the help path (print the merged description and `std::exit(0)`), or the
validated map. -/
inductive OptOutcome where
  | helpExit
  | config (vm : VarMap)
deriving DecidableEq, Repr

/-- `parseOptions` (lines 66-119): strict parse of the full token list
against the merged general-plus-tool schema, store, then the help exit,
then the mutual-exclusion check, then the map is returned. -/
def parseOptions (toolDecls : List OptDecl) (tokens : List String) :
    Except OptErr OptOutcome := do
  let occs ← cmdRun (generalDecls ++ toolDecls) false tokens
  let vm ← storeGeneral occs [] defaultVarMap
  if vm.help then pure .helpExit
  else do
    checkExclusive vm
    pure (.config vm)

/-! ## Config resolution: `getRuntimeConfig` (lines 121-134) -/

/-- `ipu_utils::RuntimeConfig` as its fields are populated at lines
125-133, with the spec's field names (the header defining the struct is
not under `src/`; the values are those of the source). -/
structure RuntimeConfig where
  deviceCount : Nat
  imagePath : String
  useSimulator : Bool
  persist : Bool
  restore : Bool
  compileOnly : Bool
  deferAttach : Bool
deriving DecidableEq, Repr

/-- `getRuntimeConfig` (lines 121-134): `exeName` is `save-exe`, or
`load-exe` when that is empty; then the aggregate of lines 125-133. -/
def getRuntimeConfig (vm : VarMap) : RuntimeConfig :=
  { deviceCount := vm.ipus
    imagePath := if vm.saveExe.isEmpty then vm.loadExe else vm.saveExe
    useSimulator := vm.model
    persist := !vm.saveExe.isEmpty
    restore := !vm.loadExe.isEmpty
    compileOnly := vm.compileOnly
    deferAttach := vm.compileOnly || vm.deferAttach }

/-- The Config Resolver of the spec: the mutual-exclusion check of
lines 112-116 followed by `getRuntimeConfig`, exactly as `main`
sequences them. -/
def resolveConfig (vm : VarMap) : Except OptErr RuntimeConfig :=
  match checkExclusive vm with
  | .error e => .error e
  | .ok _ => .ok (getRuntimeConfig vm)

/-! ## The dispatcher: `main` (lines 136-152) -/

/-- The observable outcome of a run of `main` up to the hand-off to the
execution backend. -/
inductive DriverOutcome where
  | usageError (usage : String) (names : List String)
  | unknownToolError (tool : String) (names : List String)
  | uncaughtOption (e : OptErr)
  | helpExit
  | dispatch (tool : String) (vm : VarMap) (cfg : RuntimeConfig)
deriving DecidableEq, Repr

/-- `main` (lines 136-152): resolve the tool name, build the tool's
option description (`schemas` gives each registered tool's declared
options), strictly parse, derive the runtime config, hand off. -/
def runDriver (registry : List String) (schemas : String → List OptDecl)
    (progName : String) (tokens : List String) : DriverOutcome :=
  match parseToolName registry progName tokens with
  | .error (.parseFail e) => .uncaughtOption e
  | .error (.noTool u names) => .usageError u names
  | .error (.unknownTool t names) => .unknownToolError t names
  | .ok t =>
    match parseOptions (schemas t) tokens with
    | .error e => .uncaughtOption e
    | .ok .helpExit => .helpExit
    | .ok (.config vm) => .dispatch t vm (getRuntimeConfig vm)

/-- Whether the process exits with status zero: the help path calls
`std::exit(0)`; every error path throws an exception that `main` never
catches, terminating the process abnormally (non-zero); a completed
dispatch propagates the backend's status (unknown here). -/
def exitsZero : DriverOutcome → Option Bool
  | .helpExit => some true
  | .dispatch _ _ _ => none
  | _ => some false

end MultiTool

namespace MultiTool

/-! ## Helper lemmas -/

/-- A successful config resolution returns exactly `getRuntimeConfig`. -/
theorem resolveConfig_ok_eq (vm : VarMap) (cfg : RuntimeConfig)
    (h : resolveConfig vm = .ok cfg) : cfg = getRuntimeConfig vm := by
  unfold resolveConfig at h
  cases hc : checkExclusive vm with
  | error e => rw [hc] at h; cases h
  | ok u => rw [hc] at h; exact (Except.ok.injEq _ _).mp h.symm

/-- A token list of positionals only runs through the strict parser
untouched. -/
theorem cmdRun_all_positional (decls : List OptDecl) (b : Bool) :
    ∀ tokens : List String, (∀ t ∈ tokens, classifyTok t = .positional) →
      cmdRun decls b tokens = .ok (tokens.map .pos) := by
  intro tokens
  induction tokens with
  | nil => intro _; rfl
  | cons t rest ih =>
    intro h
    have ht := h t (by simp)
    have hrest := ih (fun u hu => h u (by simp [hu]))
    simp [cmdRun, ht, hrest, Except.map]

/-- `store` skips every positional occurrence. -/
theorem storeGeneral_pos_skip :
    ∀ (l : List String) (seen : List String) (vm : VarMap),
      storeGeneral (l.map .pos) seen vm = .ok vm := by
  intro l
  induction l with
  | nil => intro seen vm; rfl
  | cons t rest ih => intro seen vm; simpa [storeGeneral] using ih seen vm

end MultiTool

namespace MultiTool

/-! ## Claims about the Config Resolver -/

/-- Claim C1: config resolution is a pure function over well-typed
parsed options that fails with the mutually-exclusive-modes error
whenever both save-exe and load-exe are non-empty, independent of the
values of all other fields; no RuntimeConfig is produced in that
case. -/
theorem resolveConfig_mutually_exclusive (vm : VarMap)
    (hs : vm.saveExe.isEmpty = false) (hl : vm.loadExe.isEmpty = false) :
    resolveConfig vm = .error .mutuallyExclusiveModes := by
  simp [resolveConfig, checkExclusive, hs, hl]

/-- Witness for C1: a map with save-exe "a", load-exe "b" and arbitrary
other fields is rejected. -/
theorem resolveConfig_mutually_exclusive_witness :
    resolveConfig { help := false, model := true, ipus := 7, saveExe := "a",
                    loadExe := "b", compileOnly := true, deferAttach := false,
                    toolOpts := [] } = .error .mutuallyExclusiveModes :=
  resolveConfig_mutually_exclusive _ rfl rfl

/-- Claim C2: every RuntimeConfig produced by config resolution has
`deferAttach = compileOnly || defer-attach`; in particular compile-only
forces deferral even when the user flag is false. -/
theorem resolveConfig_deferAttach (vm : VarMap) (cfg : RuntimeConfig)
    (h : resolveConfig vm = .ok cfg) :
    cfg.deferAttach = (vm.compileOnly || vm.deferAttach) := by
  rw [resolveConfig_ok_eq vm cfg h]
  rfl

/-- Witness for C2: with compile-only true and defer-attach false the
resolved config has deferAttach true. -/
theorem resolveConfig_deferAttach_witness :
    resolveConfig { defaultVarMap with compileOnly := true, deferAttach := false } =
      .ok (getRuntimeConfig { defaultVarMap with compileOnly := true, deferAttach := false }) ∧
    (getRuntimeConfig { defaultVarMap with compileOnly := true, deferAttach := false }).deferAttach = true :=
  ⟨rfl, resolveConfig_deferAttach
    { defaultVarMap with compileOnly := true, deferAttach := false }
    (getRuntimeConfig { defaultVarMap with compileOnly := true, deferAttach := false }) rfl⟩

/-- Claim C3: every accepted resolution has `imagePath` equal to
save-exe when that is non-empty and to load-exe otherwise, `persist`
iff save-exe is non-empty, and `restore` iff load-exe is non-empty. -/
theorem resolveConfig_image_persist_restore (vm : VarMap) (cfg : RuntimeConfig)
    (h : resolveConfig vm = .ok cfg) :
    cfg.imagePath = (if vm.saveExe.isEmpty then vm.loadExe else vm.saveExe) ∧
    cfg.persist = !vm.saveExe.isEmpty ∧
    cfg.restore = !vm.loadExe.isEmpty := by
  rw [resolveConfig_ok_eq vm cfg h]
  exact ⟨rfl, rfl, rfl⟩

/-- Witness for C3: with save-exe "img" and load-exe empty the resolved
config has imagePath "img", persist true, restore false. -/
theorem resolveConfig_image_persist_restore_witness :
    resolveConfig { defaultVarMap with saveExe := "img" } =
      .ok (getRuntimeConfig { defaultVarMap with saveExe := "img" }) ∧
    ((getRuntimeConfig { defaultVarMap with saveExe := "img" }).imagePath =
        (if ({ defaultVarMap with saveExe := "img" } : VarMap).saveExe.isEmpty
         then ({ defaultVarMap with saveExe := "img" } : VarMap).loadExe
         else ({ defaultVarMap with saveExe := "img" } : VarMap).saveExe) ∧
      (getRuntimeConfig { defaultVarMap with saveExe := "img" }).persist =
        !({ defaultVarMap with saveExe := "img" } : VarMap).saveExe.isEmpty ∧
      (getRuntimeConfig { defaultVarMap with saveExe := "img" }).restore =
        !({ defaultVarMap with saveExe := "img" } : VarMap).loadExe.isEmpty) ∧
    (getRuntimeConfig { defaultVarMap with saveExe := "img" }).imagePath = "img" ∧
    (getRuntimeConfig { defaultVarMap with saveExe := "img" }).persist = true ∧
    (getRuntimeConfig { defaultVarMap with saveExe := "img" }).restore = false :=
  ⟨rfl, resolveConfig_image_persist_restore _ _ rfl, rfl, rfl, rfl⟩

/-- Counterexample to claim C9: `--ipus=0` is accepted (the option is a
`size_t`, so zero, a non-positive value, parses fine) and yields a
device count of zero, contradicting "a non-positive value such as
--ipus=0 is not accepted". -/
theorem ipus_zero_accepted :
    parseOptions [] ["--ipus=0"] = .ok (.config { defaultVarMap with ipus := 0 }) ∧
    (getRuntimeConfig { defaultVarMap with ipus := 0 }).deviceCount = 0 :=
  ⟨rfl, rfl⟩

/-- Amended claim C9: the ipus option is parsed as a non-negative
integer (zero included) defaulting to 1, and every accepted resolution
has `deviceCount` equal to the parsed ipus value; when `--ipus` is
absent the default 1 is used. -/
theorem ipus_deviceCount :
    (∀ (vm : VarMap) (cfg : RuntimeConfig),
        resolveConfig vm = .ok cfg → cfg.deviceCount = vm.ipus) ∧
    parseOptions [] [] = .ok (.config defaultVarMap) ∧
    defaultVarMap.ipus = 1 := by
  refine ⟨?_, rfl, rfl⟩
  intro vm cfg h
  rw [resolveConfig_ok_eq vm cfg h]
  rfl

/-- Witness for the amended C9: the default map resolves to device
count 1. -/
theorem ipus_deviceCount_witness :
    (getRuntimeConfig defaultVarMap).deviceCount = defaultVarMap.ipus :=
  ipus_deviceCount.1 defaultVarMap (getRuntimeConfig defaultVarMap) rfl

end MultiTool

namespace MultiTool

/-! ## Claims about the Name Resolver and the strict parse -/

/-- Counterexample to claim C4: the argument vector `["--list-tools"]`
contains no tool-name token, yet the Name Resolver does not yield the
usage error: `list-tools` is declared as requiring a string value, so
the permissive parse fails first with a missing-argument error. -/
theorem noToolName_not_always_usageError :
    parseToolName ["fft", "mandelbrot"] "multi-tool" ["--list-tools"] =
      .error (.parseFail (.missingParameter "list-tools")) := rfl

/-- Amended claim C4: for every argument vector on which the permissive
first-phase parse and store succeed while binding no tool name, the
Name Resolver yields a usage error carrying the usage string and the
sorted registered tool names, and the process terminates with a
non-zero exit status; argument vectors on which the permissive parse
itself fails (a declared phase-one option missing its required value,
or repeated) raise that parse error instead. -/
theorem noToolName_usageError (registry : List String)
    (schemas : String → List OptDecl) (progName : String)
    (tokens : List String) (h : phase1 tokens = .ok none) :
    parseToolName registry progName tokens =
      .error (.noTool (usageOf progName) (enumerateToolNames registry)) ∧
    exitsZero (runDriver registry schemas progName tokens) = some false := by
  constructor
  · unfold parseToolName
    rw [h]
  · unfold runDriver parseToolName
    rw [h]
    rfl

/-- Witness for the amended C4: `["--model"]` has no tool-name token,
its flag is ignored by the permissive parse, and the usage error
results. -/
theorem noToolName_usageError_witness :
    phase1 ["--model"] = .ok none ∧
    (parseToolName ["fft"] "multi-tool" ["--model"] =
        .error (.noTool (usageOf "multi-tool") (enumerateToolNames ["fft"])) ∧
      exitsZero (runDriver ["fft"] (fun _ => []) "multi-tool" ["--model"]) = some false) :=
  ⟨rfl, noToolName_usageError ["fft"] (fun _ => []) "multi-tool" ["--model"] rfl⟩

/-- Counterexample to claim C5: the argument vector
`["foo", "--list-tools"]` has the unregistered tool-name token `foo`,
yet the result is not an unknown-tool error: the permissive parse fails
first on the declared `list-tools` option missing its required
value. -/
theorem unknownTool_not_always :
    (["fft"] : List String).contains "foo" = false ∧
    parseToolName ["fft"] "multi-tool" ["foo", "--list-tools"] =
      .error (.parseFail (.missingParameter "list-tools")) := ⟨rfl, rfl⟩

/-- Amended claim C5: for every argument vector on which the permissive
first-phase parse and store succeed (in particular, unrecognized flags
never fail this phase) and whose bound tool name is not registered, the
result is an unknown-tool error naming that tool — never an
invalid-option error. -/
theorem unknownTool_named (registry : List String) (progName : String)
    (tokens : List String) (t : String) (h : phase1 tokens = .ok (some t))
    (hreg : registry.contains t = false) :
    parseToolName registry progName tokens =
      .error (.unknownTool t (enumerateToolNames registry)) := by
  unfold parseToolName
  rw [h]
  have hm : t ∉ registry := by simpa using hreg
  simp [hm]

/-- Witness for the amended C5: `["foo", "--bogus"]` with `foo`
unregistered — the unrecognized `--bogus` is tolerated and the result
names `foo`. -/
theorem unknownTool_named_witness :
    phase1 ["foo", "--bogus"] = .ok (some "foo") ∧
    (["fft"] : List String).contains "foo" = false ∧
    parseToolName ["fft"] "multi-tool" ["foo", "--bogus"] =
      .error (.unknownTool "foo" (enumerateToolNames ["fft"])) :=
  ⟨rfl, rfl, unknownTool_named ["fft"] "multi-tool" ["foo", "--bogus"] "foo" rfl rfl⟩

end MultiTool

namespace MultiTool

/-- Counterexample to claim C6: under boost's prefix guessing the
strict phase accepts `--wid=3` although no option named `wid` is
declared anywhere in the merged schema — it abbreviates the tool's
`width` — so an undeclared option token is not always a hard error. -/
theorem strict_not_all_undeclared_rejected :
    findExact (generalDecls ++ [⟨"width", true⟩]) "wid" = none ∧
    parseOptions [⟨"width", true⟩] ["--wid=3"] =
      .ok (.config { defaultVarMap with toolOpts := [("width", some "3")] }) :=
  ⟨rfl, rfl⟩

/-- Amended claim C6: in the strict second-phase parse, any option
token whose name matches no declared option of the merged schema —
neither exactly nor as an unambiguous prefix (boost's guessing) — is a
hard invalid-option error; in particular, for a tool declaring only
`width`, the input `--height=3` is rejected. -/
theorem strict_undeclared_rejected :
    (∀ (toolDecls : List OptDecl) (tokens : List String) (tok nm : String)
       (adj : Option String), classifyTok tok = .longOpt nm adj →
       lookupLong (generalDecls ++ toolDecls) nm = .notFound →
       parseOptions toolDecls (tok :: tokens) = .error (.unknownOption tok)) ∧
    parseOptions [⟨"width", true⟩] ["--height=3"] =
      .error (.unknownOption "--height=3") := by
  constructor
  · intro toolDecls tokens tok nm adj hclass hlook
    simp [parseOptions, cmdRun, hclass, hlook, Bind.bind, Except.bind]
  · rfl

/-- Witness for the amended C6: `--height=3` classifies as an option
token whose name is declared by neither the general nor the tool
schema, and it is rejected. -/
theorem strict_undeclared_rejected_witness :
    classifyTok "--height=3" = .longOpt "height" (some "3") ∧
    lookupLong (generalDecls ++ [⟨"width", true⟩]) "height" = .notFound ∧
    parseOptions [⟨"width", true⟩] ["--height=3", "extra"] =
      .error (.unknownOption "--height=3") :=
  ⟨rfl, rfl,
    strict_undeclared_rejected.1 [⟨"width", true⟩] ["extra"] "--height=3"
      "height" (some "3") rfl rfl⟩

/-- Counterexample to claim C7: with `--help` present in the argument
vector alongside an undeclared option, the strict parse fails before
the help check, so the process does not terminate with status 0. -/
theorem help_not_always_first :
    parseOptions [] ["--help", "--bogus"] = .error (.unknownOption "--bogus") ∧
    runDriver ["fft"] (fun _ => []) "multi-tool" ["fft", "--help", "--bogus"] =
      .uncaughtOption (.unknownOption "--bogus") ∧
    exitsZero (.uncaughtOption (.unknownOption "--bogus")) = some false :=
  ⟨rfl, rfl, rfl⟩

/-- Amended claim C7: whenever the strict second-phase parse and store
succeed and the help option is among the parsed options, the parser
prints the merged schema's help text and terminates with exit status 0
before any further validation — in particular before the
save-exe/load-exe mutual-exclusion check (the quantification puts no
constraint on the stored save-exe and load-exe values); a parse or
store error preempts the help path. -/
theorem help_before_validation :
    (∀ (toolDecls : List OptDecl) (tokens : List String)
       (occs : List RawOcc) (vm : VarMap),
       cmdRun (generalDecls ++ toolDecls) false tokens = .ok occs →
       storeGeneral occs [] defaultVarMap = .ok vm →
       vm.help = true →
       parseOptions toolDecls tokens = .ok .helpExit) ∧
    exitsZero DriverOutcome.helpExit = some true := by
  constructor
  · intro toolDecls tokens occs vm h1 h2 h3
    simp [parseOptions, h1, h2, h3, Bind.bind, Except.bind, Pure.pure, Except.pure]
  · rfl

/-- Witness for the amended C7: help together with both save-exe and
load-exe set exits 0 rather than raising the mutual-exclusion error. -/
theorem help_before_validation_witness :
    cmdRun (generalDecls ++ []) false ["fft", "--help", "--save-exe=a", "--load-exe=b"] =
      .ok [.pos "fft", .opt "help" none, .opt "save-exe" (some "a"),
           .opt "load-exe" (some "b")] ∧
    storeGeneral [.pos "fft", .opt "help" none, .opt "save-exe" (some "a"),
                  .opt "load-exe" (some "b")] [] defaultVarMap =
      .ok { defaultVarMap with help := true, saveExe := "a", loadExe := "b" } ∧
    parseOptions [] ["fft", "--help", "--save-exe=a", "--load-exe=b"] = .ok .helpExit :=
  ⟨rfl, rfl,
    help_before_validation.1 [] ["fft", "--help", "--save-exe=a", "--load-exe=b"]
      [.pos "fft", .opt "help" none, .opt "save-exe" (some "a"),
       .opt "load-exe" (some "b")]
      { defaultVarMap with help := true, saveExe := "a", loadExe := "b" }
      rfl rfl rfl⟩

/-- Claim C8 (documenting the code bug): on the argument vector
`["--list-tools"]` the program does not produce the usage error and
does not print the tool list — the declared-but-never-handled
`list-tools` option requires a string value, so the permissive parse
throws a missing-argument error, which `main` never catches; the
process terminates abnormally (non-zero) without the tool list. -/
theorem listTools_missing_argument :
    runDriver ["fft"] (fun _ => []) "multi-tool" ["--list-tools"] =
      .uncaughtOption (.missingParameter "list-tools") ∧
    exitsZero (DriverOutcome.uncaughtOption (.missingParameter "list-tools")) =
      some false :=
  ⟨rfl, rfl⟩

/-- Counterexample to claim C10: in
`["fft", "--save-exe=a", "--load-exe=b"]` the only undeclared token is
the positional `fft`, yet `parseOptions` does not succeed: the declared
options trip the mutual-exclusion check. -/
theorem positionals_not_sufficient :
    classifyTok "fft" = .positional ∧
    parseOptions [] ["fft", "--save-exe=a", "--load-exe=b"] =
      .error .mutuallyExclusiveModes :=
  ⟨rfl, rfl⟩

/-- Amended claim C10: the strict second-phase parse never rejects bare
positional tokens — an argument vector made of positional tokens only
(the tool name included) parses successfully with all of them silently
ignored, yielding the all-defaults option map — and undeclared
dash-prefixed tokens remain hard errors; `parseOptions` as a whole can
still fail through its declared options (missing or invalid values,
repeated options, the mutual-exclusion check). -/
theorem strict_positionals_ignored :
    (∀ (toolDecls : List OptDecl) (tokens : List String),
       (∀ t ∈ tokens, classifyTok t = .positional) →
       parseOptions toolDecls tokens = .ok (.config defaultVarMap)) ∧
    parseOptions [] ["fft", "--ipus=2", "--save-exe=out"] =
      .ok (.config { defaultVarMap with ipus := 2, saveExe := "out" }) := by
  constructor
  · intro toolDecls tokens h
    have h1 := cmdRun_all_positional (generalDecls ++ toolDecls) false tokens h
    have h2 := storeGeneral_pos_skip tokens [] defaultVarMap
    simp only [parseOptions, h1, h2, Bind.bind, Except.bind]
    rfl
  · rfl

/-- Witness for the amended C10: a tool name plus a stray positional
parse to the defaults. -/
theorem strict_positionals_ignored_witness :
    (∀ t ∈ (["fft", "extra"] : List String), classifyTok t = .positional) ∧
    parseOptions [] ["fft", "extra"] = .ok (.config defaultVarMap) :=
  ⟨by decide, strict_positionals_ignored.1 [] ["fft", "extra"] (by decide)⟩

end MultiTool
